import Mathlib

/-!
Shallow embedding of the `itch-order-book` repository
(`parse_itch5.py`, `orderbook.py`, `reconstruct.py`).

Modelling conventions, used consistently below:

* Python `bytes` values are `List ℕ` (one entry per byte); decoded one-byte
  characters are the byte value (`"B"` is `66`, `"S"` is `83`, `"Y"` is `89`);
  decoded strings are their byte lists (the feeds carry ASCII, and the only
  operations used are equality and space-stripping).
* Python `int` timestamps, reference numbers and raw share counts are `ℕ`;
  `Order.shares` is `ℤ` because the source can drive it negative
  (`order.shares - m[4]` in the `X` handler of `reconstruct.py`).
* Python `float` prices are `ℚ`.  The source computes prices only as
  `float(raw_u32) / 10000` and then compares them for equality and order.
  For raw values below `2^32` the map `r ↦ float(r)/10000` is strictly
  monotone and injective on binary64 floats (adjacent values differ by
  ~1e-4 while the float spacing at that magnitude is below 1e-10), so the
  exact rational `r / 10000` has the same equality and ordering behaviour
  as the Python float and the embedding is observationally faithful.
* Python dicts are association lists with unique keys (`dictInsert`
  replaces in place, else appends, as CPython preserves insertion order);
  `SortedDict` is an association list kept sorted by its key.
* Python mutates `Order` objects in place, and the same object is held by
  `OrderBook.orders` and by one side `SortedDict`.  The embedding makes
  this aliasing explicit: whenever the source mutates an order, the model
  updates its entry in `orders` and the value stored under its side key.
  (On every reachable state an order's side key is
  `(price, timestamp, ref)` with `timestamp = original_timestamp`, since
  no caller ever passes a new timestamp to `Order.update_order`.)
* A raised Python exception is an `Option PyErr` returned next to the
  state: in-place mutations performed before the raise are kept (as in
  CPython), and the driving loop stops at the first error, mirroring the
  exception propagating out of `reconstruct_orderbook`.
-/

namespace ItchBook

attribute [local semireducible] Rat.mul Rat.inv Rat.add Rat.sub

/-- Kernel-computable decidability of list membership (the default
instance reduces poorly under `decide`). -/
instance listMemDec {α : Type} [DecidableEq α] (x : α) :
    (l : List α) → Decidable (x ∈ l)
  | [] => isFalse (by simp)
  | y :: t =>
      if h : x = y then isTrue (by simp [h])
      else
        match listMemDec x t with
        | isTrue ht => isTrue (by simp [ht])
        | isFalse ht => isFalse (by simp [h, ht])

instance : DecidableEq (ℕ × ℕ × ℕ × ℤ × ℚ) := instDecidableEqProd

/-- Python exception kinds raised by the source on the paths modelled here. -/
inductive PyErr where
  /-- `struct.error`: `struct.unpack` applied to a buffer of the wrong size
  (raised when end-of-stream truncates the payload of a parsed record). -/
  | structError
  /-- `TypeError`: a call with the wrong number of positional arguments
  (the `record_trade` call sites pass 2 or 3 of its 5 required arguments). -/
  | typeError
  /-- `KeyError`: subscripting a dict with an absent key
  (`orders[m[3]]` in the `X` and `U` handlers). -/
  | keyError
  /-- `NameError`/`UnboundLocalError`: `remove_order` reads the local
  `order` on line 166 although the `if` on line 159 did not bind it. -/
  | nameError
deriving DecidableEq, Repr

/-- `int.from_bytes(l, byteorder="big")`, also the big-endian integer
fields of `struct.unpack` (`H`, `I`, `L`, `Q` and the 6-byte timestamps). -/
def beNat (l : List ℕ) : ℕ := l.foldl (fun acc b => acc * 256 + b) 0

/-- `str.strip()` on a decoded ASCII field: drop spaces from both ends
(the feed pads symbols with spaces only). -/
def pyStrip (l : List ℕ) : List ℕ :=
  ((l.dropWhile (· = 32)).reverse.dropWhile (· = 32)).reverse

/-- Python dict lookup `d[k]` / `k in d` (association list, unique keys). -/
def dictLookup {κ α : Type} [DecidableEq κ] (k : κ) : List (κ × α) → Option α
  | [] => none
  | (k', v) :: t => if k = k' then some v else dictLookup k t

/-- Python dict assignment `d[k] = v`: replace in place when the key is
present (CPython keeps the entry's position), else append. -/
def dictInsert {κ α : Type} [DecidableEq κ] (k : κ) (v : α) :
    List (κ × α) → List (κ × α)
  | [] => [(k, v)]
  | (k', v') :: t =>
      if k = k' then (k, v) :: t else (k', v') :: dictInsert k v t

/-- Python `d.pop(k)` / `del d[k]` restricted to its effect on the map
(drop the entry for `k`; no-op when absent, as used with `pop(k, None)`). -/
def dictErase {κ α : Type} [DecidableEq κ] (k : κ) :
    List (κ × α) → List (κ × α)
  | [] => []
  | (k', v') :: t => if k = k' then t else (k', v') :: dictErase k t

/-- Python `set.add`. -/
def setAdd (s : List ℕ) (x : ℕ) : List ℕ := if x ∈ s then s else s ++ [x]

/-- The key of a side `SortedDict`: `(price, timestamp, order_ref_number)`. -/
abbrev SideKey : Type := ℚ × ℕ × ℕ

/-- Python's lexicographic `<` on `(float, int, int)` tuples, the order
`SortedDict` maintains. -/
def sideKeyLt (a b : SideKey) : Prop :=
  a.1 < b.1 ∨ (a.1 = b.1 ∧ (a.2.1 < b.2.1 ∨ (a.2.1 = b.2.1 ∧ a.2.2 < b.2.2)))

instance (a b : SideKey) : Decidable (sideKeyLt a b) :=
  inferInstanceAs (Decidable (a.1 < b.1 ∨ (a.1 = b.1 ∧
    (a.2.1 < b.2.1 ∨ (a.2.1 = b.2.1 ∧ a.2.2 < b.2.2)))))

/-- `SortedDict` assignment `side[key] = order`: replace when the key is
present, else insert at the sorted position. -/
def sideInsert (k : SideKey) (v : α) : List (SideKey × α) → List (SideKey × α)
  | [] => [(k, v)]
  | (k', v') :: t =>
      if k = k' then (k, v) :: t
      else if sideKeyLt k k' then (k, v) :: (k', v') :: t
      else (k', v') :: sideInsert k v t

/-- `SortedDict.pop(key, None)` / `del side[key]`: drop the entry for the
key (no-op when absent). -/
def sideErase (k : SideKey) : List (SideKey × α) → List (SideKey × α)
  | [] => []
  | (k', v') :: t => if k = k' then t else (k', v') :: sideErase k t

/-- In-place mutation of the `Order` object stored under a side key: the
key and position do not move, only the stored value changes. -/
def sideSetVal (k : SideKey) (v : α) (l : List (SideKey × α)) :
    List (SideKey × α) :=
  l.map fun p => if p.1 = k then (k, v) else p

/-- `orderbook.Order`.  `__init__` sets both timestamps to the argument. -/
structure Order where
  original_timestamp : ℕ
  timestamp : ℕ
  order_ref_number : ℕ
  /-- Decoded one-byte `"B"`/`"S"` indicator, as its byte value. -/
  buy_sell_indicator : ℕ
  shares : ℤ
  price : ℚ
deriving DecidableEq, Repr

/-- `Order(timestamp, order_ref_number, buy_sell_indicator, shares, price)`. -/
def Order.init (timestamp order_ref_number buy_sell_indicator : ℕ)
    (shares : ℤ) (price : ℚ) : Order :=
  { original_timestamp := timestamp
    timestamp := timestamp
    order_ref_number := order_ref_number
    buy_sell_indicator := buy_sell_indicator
    shares := shares
    price := price }

/-- `Order.update_order(new_timestamp, new_shares, new_price)`. -/
def Order.update_order (o : Order) (new_timestamp : Option ℕ)
    (new_shares : Option ℤ) (new_price : Option ℚ) : Order :=
  { o with
    timestamp := new_timestamp.getD o.timestamp
    shares := new_shares.getD o.shares
    price := new_price.getD o.price }

/-- One row of `order_book_history`: the timestamp followed by, for each
depth index, `(buy_price, buy_shares, sell_price, sell_shares)` with
`none` for Python's `None`. -/
abbrev StateRow : Type := ℕ × List (Option ℚ × Option ℤ × Option ℚ × Option ℤ)

instance : DecidableEq StateRow := instDecidableEqProd

/-- `orderbook.OrderBook`. -/
structure OrderBook where
  stock_symbol : List ℕ
  depth : ℕ
  orders : List (ℕ × Order)
  buy_orders : List (SideKey × Order)
  sell_orders : List (SideKey × Order)
  /-- `record_trade` appends `(timestamp, order_ref_number,
  buy_sell_indicator, shares, price)` tuples. -/
  trades : List (ℕ × ℕ × ℕ × ℤ × ℚ)
  /-- `record_cross_trade` appends `(timestamp, price, shares)` tuples. -/
  cross_trades : List (ℕ × ℚ × ℤ)
  order_book_history : List StateRow
deriving DecidableEq, Repr

/-- `OrderBook(stock_symbol, depth)`. -/
def OrderBook.init (stock_symbol : List ℕ) (depth : ℕ) : OrderBook :=
  { stock_symbol := stock_symbol
    depth := depth
    orders := []
    buy_orders := []
    sell_orders := []
    trades := []
    cross_trades := []
    order_book_history := [] }

/-- The body of the Python loop in `_accumulate_order_levels`: extend
`levels` with one `(price, shares)` entry, merging into the last level
when the price repeats. -/
def pushLevel (levels : List (ℚ × ℤ)) (price : ℚ) (shares : ℤ) :
    List (ℚ × ℤ) :=
  match levels.getLast? with
  | none => [(price, shares)]
  | some (p, s) =>
      if p ≠ price then levels ++ [(price, shares)]
      else levels.dropLast ++ [(p, s + shares)]

/-- `OrderBook._accumulate_order_levels`: fold the sorted side into at
most `depth` aggregated levels, stopping (Python `break`) once `depth`
levels exist. -/
def accumulate_order_levels (depth : ℕ) :
    List (SideKey × Order) → List (ℚ × ℤ) → List (ℚ × ℤ)
  | [], levels => levels
  | (k, order) :: t, levels =>
      if levels.length < depth then
        accumulate_order_levels depth t (pushLevel levels k.1 order.shares)
      else levels

/-- `OrderBook.record_state(timestamp)`. -/
def OrderBook.record_state (b : OrderBook) (timestamp : ℕ) : OrderBook :=
  let buy_levels := accumulate_order_levels b.depth b.buy_orders []
  let sell_levels := accumulate_order_levels b.depth b.sell_orders []
  let row : StateRow :=
    (timestamp,
      (List.range b.depth).map fun i =>
        ((buy_levels.get? i).map Prod.fst, (buy_levels.get? i).map Prod.snd,
         (sell_levels.get? i).map Prod.fst, (sell_levels.get? i).map Prod.snd))
  { b with order_book_history := b.order_book_history ++ [row] }

/-- `OrderBook.add_order(order)`: index by ref, insert on the side keyed
by `(price, original_timestamp, order_ref_number)`, then
`record_state(order.timestamp)`. -/
def OrderBook.add_order (b : OrderBook) (order : Order) : OrderBook :=
  let b := { b with orders := dictInsert order.order_ref_number order b.orders }
  let order_key : SideKey :=
    (order.price, order.original_timestamp, order.order_ref_number)
  let b :=
    if order.buy_sell_indicator = 66 then
      { b with buy_orders := sideInsert order_key order b.buy_orders }
    else
      { b with sell_orders := sideInsert order_key order b.sell_orders }
  b.record_state order.timestamp

/-- `OrderBook.update_order(order_ref_number, new_timestamp, new_shares,
new_price)`.  When the price is unchanged the side dict is not touched by
the source; the aliased `Order` value is updated in place. -/
def OrderBook.update_order (b : OrderBook) (order_ref_number : ℕ)
    (new_timestamp : ℕ) (new_shares : Option ℤ) (new_price : Option ℚ) :
    OrderBook :=
  let b' :=
    match dictLookup order_ref_number b.orders with
    | none => b
    | some order =>
        let old_order_key : SideKey :=
          (order.price, order.timestamp, order_ref_number)
        let order' := order.update_order none new_shares new_price
        let b := { b with orders := dictInsert order_ref_number order' b.orders }
        if old_order_key.1 ≠ order'.price then
          let new_order_key : SideKey :=
            (order'.price, order'.timestamp, order_ref_number)
          if order'.buy_sell_indicator = 66 then
            { b with buy_orders :=
                sideInsert new_order_key order' (sideErase old_order_key b.buy_orders) }
          else
            { b with sell_orders :=
                sideInsert new_order_key order' (sideErase old_order_key b.sell_orders) }
        else
          if order'.buy_sell_indicator = 66 then
            { b with buy_orders := sideSetVal old_order_key order' b.buy_orders }
          else
            { b with sell_orders := sideSetVal old_order_key order' b.sell_orders }
  b'.record_state new_timestamp

/-- `OrderBook.remove_order(order_ref_number)`.  The final
`record_state(order.timestamp)` sits outside the `if`: with the ref
present it stamps the row with the removed order's own timestamp; with it
absent the local `order` is unbound and Python raises. -/
def OrderBook.remove_order (b : OrderBook) (order_ref_number : ℕ) :
    OrderBook × Option PyErr :=
  match dictLookup order_ref_number b.orders with
  | some order =>
      let b := { b with orders := dictErase order_ref_number b.orders }
      let order_key : SideKey :=
        (order.price, order.timestamp, order_ref_number)
      let b :=
        if order.buy_sell_indicator = 66 then
          { b with buy_orders := sideErase order_key b.buy_orders }
        else
          { b with sell_orders := sideErase order_key b.sell_orders }
      (b.record_state order.timestamp, none)
  | none => (b, some PyErr.nameError)

/-- `OrderBook.record_trade(timestamp, order_ref_number, shares, price,
buy_sell_indicator)` — five required parameters, appending a 5-tuple.
Every call site in the source passes fewer arguments and raises
`TypeError` instead of reaching this body. -/
def OrderBook.record_trade (b : OrderBook) (timestamp order_ref_number : ℕ)
    (shares : ℤ) (price : ℚ) (buy_sell_indicator : ℕ) : OrderBook :=
  { b with trades :=
      b.trades ++ [(timestamp, order_ref_number, buy_sell_indicator, shares, price)] }

/-- `OrderBook.record_cross_trade(timestamp, price, shares)` — never
called by `reconstruct.py` (its `Q` handler calls `record_trade`). -/
def OrderBook.record_cross_trade (b : OrderBook) (timestamp : ℕ) (price : ℚ)
    (shares : ℤ) : OrderBook :=
  { b with cross_trades := b.cross_trades ++ [(timestamp, price, shares)] }

/-- `OrderBook.process_trade(timestamp, order_ref_number, shares, price,
printable)`.  After the removal/decrement, a printable trade reaches
`self.record_trade(timestamp, order_ref_number)` — 2 of the 5 required
positional arguments — which raises `TypeError` with the book already
mutated. -/
def OrderBook.process_trade (b : OrderBook) (timestamp order_ref_number : ℕ)
    (shares : ℤ) (price : Option ℚ) (printable : Bool) :
    OrderBook × Option PyErr :=
  match dictLookup order_ref_number b.orders with
  | none => (b, none)
  | some order =>
      let new_shares := order.shares - shares
      let price := price.getD order.price
      let step :=
        if new_shares ≤ 0 then b.remove_order order_ref_number
        else (b.update_order order_ref_number timestamp (some new_shares) (some price),
              none)
      match step with
      | (b', some e) => (b', some e)
      | (b', none) =>
          if printable then (b', some PyErr.typeError) else (b', none)

/-! ### Decoded messages (`parse_itch5.py`)

Each structure mirrors one parser's returned tuple, with fields named
after the docstring's field list; unparsed-but-unused trailing fields are
kept as raw bytes. -/

/-- `parse_stock_directory` (`R`, 38 bytes).  The source leaves the
timestamp as raw bytes (`m[2]` is never converted) and only `m[0]`
(locate) and `m[3]` (stock) are used downstream; the remaining thirteen
fields are carried as their raw bytes. -/
structure StockDirMsg where
  stock_locate : ℕ
  tracking_number : ℕ
  timestamp_bytes : List ℕ
  stock : List ℕ
  other_fields : List ℕ
deriving DecidableEq, Repr

/-- `parse_add_order` (`A`, 35 bytes) and, attribution dropped,
`parse_add_order_with_mpid` (`F`, 39 bytes). -/
structure AddOrderMsg where
  stock_locate : ℕ
  tracking_number : ℕ
  timestamp : ℕ
  order_ref_number : ℕ
  buy_sell_indicator : ℕ
  shares : ℕ
  stock : List ℕ
  price : ℚ
deriving DecidableEq, Repr

/-- `parse_order_executed` (`E`, 30 bytes). -/
structure OrderExecutedMsg where
  stock_locate : ℕ
  tracking_number : ℕ
  timestamp : ℕ
  order_ref_number : ℕ
  executed_shares : ℕ
  match_number : ℕ
deriving DecidableEq, Repr

/-- `parse_order_executed_price` (`C`, 35 bytes). -/
structure OrderExecutedPriceMsg where
  stock_locate : ℕ
  tracking_number : ℕ
  timestamp : ℕ
  order_ref_number : ℕ
  executed_shares : ℕ
  match_number : ℕ
  printable : ℕ
  execution_price : ℚ
deriving DecidableEq, Repr

/-- `parse_order_cancel` (`X`, 22 bytes). -/
structure OrderCancelMsg where
  stock_locate : ℕ
  tracking_number : ℕ
  timestamp : ℕ
  order_ref_number : ℕ
  canceled_shares : ℕ
deriving DecidableEq, Repr

/-- `parse_order_delete` (`D`, 18 bytes). -/
structure OrderDeleteMsg where
  stock_locate : ℕ
  tracking_number : ℕ
  timestamp : ℕ
  order_ref_number : ℕ
deriving DecidableEq, Repr

/-- `parse_order_replace` (`U`, 34 bytes). -/
structure OrderReplaceMsg where
  stock_locate : ℕ
  tracking_number : ℕ
  timestamp : ℕ
  original_order_ref_number : ℕ
  new_order_ref_number : ℕ
  shares : ℕ
  price : ℚ
deriving DecidableEq, Repr

/-- `parse_trade` (`P`, 43 bytes). -/
structure TradeMsg where
  stock_locate : ℕ
  tracking_number : ℕ
  timestamp : ℕ
  order_ref_number : ℕ
  buy_sell_indicator : ℕ
  shares : ℕ
  stock : List ℕ
  price : ℚ
  match_number : ℕ
deriving DecidableEq, Repr

/-- `parse_cross_trade` (`Q`, 39 bytes). -/
structure CrossTradeMsg where
  stock_locate : ℕ
  tracking_number : ℕ
  timestamp : ℕ
  shares : ℕ
  stock : List ℕ
  cross_price : ℚ
  match_number : ℕ
  cross_type : ℕ
deriving DecidableEq, Repr

/-- Slice `len` bytes at offset `off` of a payload. -/
def field (a : List ℕ) (off len : ℕ) : List ℕ := (a.drop off).take len

/-- One byte at offset `off` of a payload. -/
def fieldByte (a : List ℕ) (off : ℕ) : ℕ := (a.drop off).headD 0

/-- `parse_stock_directory(a)`; format `!HH6s8sccIcc2scccccIc` (38 bytes).
`struct.unpack` raises `struct.error` unless the buffer length matches. -/
def parse_stock_directory (a : List ℕ) : Except PyErr StockDirMsg :=
  if a.length = 38 then
    .ok { stock_locate := beNat (field a 0 2)
          tracking_number := beNat (field a 2 2)
          timestamp_bytes := field a 4 6
          stock := pyStrip (field a 10 8)
          other_fields := a.drop 18 }
  else .error PyErr.structError

/-- `parse_add_order(a)`; format `!HH6sQcI8sL` (35 bytes); the price is
`float(raw_u32) / 10000`. -/
def parse_add_order (a : List ℕ) : Except PyErr AddOrderMsg :=
  if a.length = 35 then
    .ok { stock_locate := beNat (field a 0 2)
          tracking_number := beNat (field a 2 2)
          timestamp := beNat (field a 4 6)
          order_ref_number := beNat (field a 10 8)
          buy_sell_indicator := fieldByte a 18
          shares := beNat (field a 19 4)
          stock := pyStrip (field a 23 8)
          price := (beNat (field a 31 4) : ℚ) / 10000 }
  else .error PyErr.structError

/-- `parse_add_order_with_mpid(a)`; format `!HH6sQcI8sL4s` (39 bytes);
the attribution is popped, leaving the `parse_add_order` tuple. -/
def parse_add_order_with_mpid (a : List ℕ) : Except PyErr AddOrderMsg :=
  if a.length = 39 then
    .ok { stock_locate := beNat (field a 0 2)
          tracking_number := beNat (field a 2 2)
          timestamp := beNat (field a 4 6)
          order_ref_number := beNat (field a 10 8)
          buy_sell_indicator := fieldByte a 18
          shares := beNat (field a 19 4)
          stock := pyStrip (field a 23 8)
          price := (beNat (field a 31 4) : ℚ) / 10000 }
  else .error PyErr.structError

/-- `parse_order_executed(a)`; format `!HH6sQIQ` (30 bytes). -/
def parse_order_executed (a : List ℕ) : Except PyErr OrderExecutedMsg :=
  if a.length = 30 then
    .ok { stock_locate := beNat (field a 0 2)
          tracking_number := beNat (field a 2 2)
          timestamp := beNat (field a 4 6)
          order_ref_number := beNat (field a 10 8)
          executed_shares := beNat (field a 18 4)
          match_number := beNat (field a 22 8) }
  else .error PyErr.structError

/-- `parse_order_executed_price(a)`; format `!HH6sQIQcL` (35 bytes). -/
def parse_order_executed_price (a : List ℕ) : Except PyErr OrderExecutedPriceMsg :=
  if a.length = 35 then
    .ok { stock_locate := beNat (field a 0 2)
          tracking_number := beNat (field a 2 2)
          timestamp := beNat (field a 4 6)
          order_ref_number := beNat (field a 10 8)
          executed_shares := beNat (field a 18 4)
          match_number := beNat (field a 22 8)
          printable := fieldByte a 30
          execution_price := (beNat (field a 31 4) : ℚ) / 10000 }
  else .error PyErr.structError

/-- `parse_order_cancel(a)`; format `!HH6sQI` (22 bytes). -/
def parse_order_cancel (a : List ℕ) : Except PyErr OrderCancelMsg :=
  if a.length = 22 then
    .ok { stock_locate := beNat (field a 0 2)
          tracking_number := beNat (field a 2 2)
          timestamp := beNat (field a 4 6)
          order_ref_number := beNat (field a 10 8)
          canceled_shares := beNat (field a 18 4) }
  else .error PyErr.structError

/-- `parse_order_delete(a)`; format `!HH6sQ` (18 bytes). -/
def parse_order_delete (a : List ℕ) : Except PyErr OrderDeleteMsg :=
  if a.length = 18 then
    .ok { stock_locate := beNat (field a 0 2)
          tracking_number := beNat (field a 2 2)
          timestamp := beNat (field a 4 6)
          order_ref_number := beNat (field a 10 8) }
  else .error PyErr.structError

/-- `parse_order_replace(a)`; format `!HH6sQQIL` (34 bytes). -/
def parse_order_replace (a : List ℕ) : Except PyErr OrderReplaceMsg :=
  if a.length = 34 then
    .ok { stock_locate := beNat (field a 0 2)
          tracking_number := beNat (field a 2 2)
          timestamp := beNat (field a 4 6)
          original_order_ref_number := beNat (field a 10 8)
          new_order_ref_number := beNat (field a 18 8)
          shares := beNat (field a 26 4)
          price := (beNat (field a 30 4) : ℚ) / 10000 }
  else .error PyErr.structError

/-- `parse_trade(a)`; format `!HH6sQcI8sLQ` (43 bytes). -/
def parse_trade (a : List ℕ) : Except PyErr TradeMsg :=
  if a.length = 43 then
    .ok { stock_locate := beNat (field a 0 2)
          tracking_number := beNat (field a 2 2)
          timestamp := beNat (field a 4 6)
          order_ref_number := beNat (field a 10 8)
          buy_sell_indicator := fieldByte a 18
          shares := beNat (field a 19 4)
          stock := pyStrip (field a 23 8)
          price := (beNat (field a 31 4) : ℚ) / 10000
          match_number := beNat (field a 35 8) }
  else .error PyErr.structError

/-- `parse_cross_trade(a)`; format `!HH6sQ8sLQc` (39 bytes). -/
def parse_cross_trade (a : List ℕ) : Except PyErr CrossTradeMsg :=
  if a.length = 39 then
    .ok { stock_locate := beNat (field a 0 2)
          tracking_number := beNat (field a 2 2)
          timestamp := beNat (field a 4 6)
          shares := beNat (field a 10 8)
          stock := pyStrip (field a 18 8)
          cross_price := (beNat (field a 26 4) : ℚ) / 10000
          match_number := beNat (field a 30 8)
          cross_type := fieldByte a 38 }
  else .error PyErr.structError

/-! ### Engine (`reconstruct.reconstruct_orderbook`) -/

/-- A decoded record, as dispatched by the `elif` chain of
`reconstruct_orderbook`; `skipped` covers the eleven message types whose
payload is read and ignored (`S H Y L V W K J h B I`). -/
inductive Msg where
  | stockDir (m : StockDirMsg)
  | addOrder (m : AddOrderMsg)
  | addOrderMPID (m : AddOrderMsg)
  | orderExecuted (m : OrderExecutedMsg)
  | orderExecutedPrice (m : OrderExecutedPriceMsg)
  | orderCancel (m : OrderCancelMsg)
  | orderDelete (m : OrderDeleteMsg)
  | orderReplace (m : OrderReplaceMsg)
  | trade (m : TradeMsg)
  | crossTrade (m : CrossTradeMsg)
  | skipped
deriving DecidableEq, Repr

/-- The engine's mutable state: `selected_stocks` (set of tracked locate
numbers) and `order_book` (dict keyed by locate). -/
structure Engine where
  selected_stocks : List ℕ
  order_book : List (ℕ × OrderBook)
deriving DecidableEq, Repr

/-- `reconstruct_orderbook`'s initial state: empty set, empty dict. -/
def Engine.init : Engine := { selected_stocks := [], order_book := [] }

/-- In-place mutation of `order_book[locate]` (the handlers mutate the
book object held in the dict). -/
def setBook (st : Engine) (locate : ℕ) (b : OrderBook) : Engine :=
  { st with order_book := dictInsert locate b st.order_book }

/-- One iteration of the `reconstruct_orderbook` dispatch on a decoded
record, transcribing each `elif` body; the `Option PyErr` is an exception
propagating out of the loop with the in-place mutations kept. -/
def stepMsg (selected_symbols : List (List ℕ)) (depth : ℕ) (st : Engine) :
    Msg → Engine × Option PyErr
  | Msg.stockDir m =>
      if m.stock ∈ selected_symbols then
        ({ selected_stocks := setAdd st.selected_stocks m.stock_locate
           order_book :=
             dictInsert m.stock_locate (OrderBook.init m.stock depth)
               st.order_book }, none)
      else (st, none)
  | Msg.addOrder m =>
      if m.stock_locate ∈ st.selected_stocks then
        match dictLookup m.stock_locate st.order_book with
        | none => (st, some PyErr.keyError)
        | some b =>
            let order := Order.init m.timestamp m.order_ref_number
              m.buy_sell_indicator (m.shares : ℤ) m.price
            let b := (b.add_order order).record_state m.timestamp
            (setBook st m.stock_locate b, none)
      else (st, none)
  | Msg.addOrderMPID m =>
      if m.stock_locate ∈ st.selected_stocks then
        match dictLookup m.stock_locate st.order_book with
        | none => (st, some PyErr.keyError)
        | some b =>
            let order := Order.init m.timestamp m.order_ref_number
              m.buy_sell_indicator (m.shares : ℤ) m.price
            let b := (b.add_order order).record_state m.timestamp
            (setBook st m.stock_locate b, none)
      else (st, none)
  | Msg.orderExecuted m =>
      if m.stock_locate ∈ st.selected_stocks then
        match dictLookup m.stock_locate st.order_book with
        | none => (st, some PyErr.keyError)
        | some b =>
            match b.process_trade m.timestamp m.order_ref_number
                (m.executed_shares : ℤ) none true with
            | (b', some e) => (setBook st m.stock_locate b', some e)
            | (b', none) =>
                (setBook st m.stock_locate (b'.record_state m.timestamp), none)
      else (st, none)
  | Msg.orderExecutedPrice m =>
      if m.stock_locate ∈ st.selected_stocks then
        match dictLookup m.stock_locate st.order_book with
        | none => (st, some PyErr.keyError)
        | some b =>
            match b.process_trade m.timestamp m.order_ref_number
                (m.executed_shares : ℤ) (some m.execution_price)
                (m.printable = 89) with
            | (b', some e) => (setBook st m.stock_locate b', some e)
            | (b', none) =>
                (setBook st m.stock_locate (b'.record_state m.timestamp), none)
      else (st, none)
  | Msg.orderCancel m =>
      if m.stock_locate ∈ st.selected_stocks then
        match dictLookup m.stock_locate st.order_book with
        | none => (st, some PyErr.keyError)
        | some b =>
            match dictLookup m.order_ref_number b.orders with
            | none => (st, some PyErr.keyError)
            | some order =>
                let order' := order.update_order none
                  (some (order.shares - (m.canceled_shares : ℤ))) none
                let key : SideKey :=
                  (order.price, order.original_timestamp, m.order_ref_number)
                let b := { b with
                  orders := dictInsert m.order_ref_number order' b.orders
                  buy_orders :=
                    if order.buy_sell_indicator = 66 then
                      sideSetVal key order' b.buy_orders
                    else b.buy_orders
                  sell_orders :=
                    if order.buy_sell_indicator = 66 then b.sell_orders
                    else sideSetVal key order' b.sell_orders }
                (setBook st m.stock_locate (b.record_state m.timestamp), none)
      else (st, none)
  | Msg.orderDelete m =>
      if m.stock_locate ∈ st.selected_stocks then
        match dictLookup m.stock_locate st.order_book with
        | none => (st, some PyErr.keyError)
        | some b =>
            match b.remove_order m.order_ref_number with
            | (b', some e) => (setBook st m.stock_locate b', some e)
            | (b', none) =>
                (setBook st m.stock_locate (b'.record_state m.timestamp), none)
      else (st, none)
  | Msg.orderReplace m =>
      if m.stock_locate ∈ st.selected_stocks then
        match dictLookup m.stock_locate st.order_book with
        | none => (st, some PyErr.keyError)
        | some b =>
            match dictLookup m.original_order_ref_number b.orders with
            | none => (st, some PyErr.keyError)
            | some og =>
                match b.remove_order og.order_ref_number with
                | (b', some e) => (setBook st m.stock_locate b', some e)
                | (b', none) =>
                    let b'' := b'.add_order (Order.init m.timestamp
                      m.new_order_ref_number og.buy_sell_indicator
                      (m.shares : ℤ) m.price)
                    (setBook st m.stock_locate (b''.record_state m.timestamp),
                     none)
      else (st, none)
  | Msg.trade m =>
      if m.stock_locate ∈ st.selected_stocks then
        match dictLookup m.stock_locate st.order_book with
        | none => (st, some PyErr.keyError)
        | some _ =>
            -- `record_trade(m[2], m[5], m[7])`: 3 of 5 required positional
            -- arguments; `TypeError` is raised before any mutation.
            (st, some PyErr.typeError)
      else (st, none)
  | Msg.crossTrade m =>
      if m.stock_locate ∈ st.selected_stocks then
        match dictLookup m.stock_locate st.order_book with
        | none => (st, some PyErr.keyError)
        | some _ =>
            -- `record_trade(m[2], m[3], m[5])`: same wrong arity as `P`.
            (st, some PyErr.typeError)
      else (st, none)
  | Msg.skipped => (st, none)

/-- Run the engine over a list of decoded records, stopping at the first
raised exception (which propagates out of `reconstruct_orderbook`). -/
def runMsgs (selected_symbols : List (List ℕ)) (depth : ℕ) :
    List Msg → Engine → Engine × Option PyErr
  | [], st => (st, none)
  | msg :: rest, st =>
      match stepMsg selected_symbols depth st msg with
      | (st', some e) => (st', some e)
      | (st', none) => runMsgs selected_symbols depth rest st'

/-- The tag bytes whose payload is parsed before dispatch, with the
payload length `binary.read` requests: `R A F E C X D U P Q`. -/
def parsedTagLen (t : ℕ) : Option ℕ :=
  if t = 82 then some 38       -- R
  else if t = 65 then some 35  -- A
  else if t = 70 then some 39  -- F
  else if t = 69 then some 30  -- E
  else if t = 67 then some 35  -- C
  else if t = 88 then some 22  -- X
  else if t = 68 then some 18  -- D
  else if t = 85 then some 34  -- U
  else if t = 80 then some 43  -- P
  else if t = 81 then some 39  -- Q
  else none

/-- The tag bytes whose payload is read and ignored, with its length:
`S H Y L V W K J h B I`. -/
def skipTagLen (t : ℕ) : Option ℕ :=
  if t = 83 then some 11        -- S
  else if t = 72 then some 24   -- H
  else if t = 89 then some 19   -- Y
  else if t = 76 then some 25   -- L
  else if t = 86 then some 34   -- V
  else if t = 87 then some 11   -- W
  else if t = 75 then some 27   -- K
  else if t = 74 then some 34   -- J
  else if t = 104 then some 20  -- h
  else if t = 66 then some 18   -- B
  else if t = 73 then some 49   -- I
  else none

/-- The 21 tag bytes of the `elif` chain. -/
def knownTags : List ℕ :=
  [83, 82, 72, 89, 76, 86, 87, 75, 74, 104, 65, 70, 69, 67, 88, 68, 85, 80, 81, 66, 73]

/-- Parse one payload and dispatch, shared by the ten parsed tags. -/
def parseStep {μ : Type} (parse : List ℕ → Except PyErr μ) (wrap : μ → Msg)
    (selected_symbols : List (List ℕ)) (depth : ℕ) (a : List ℕ)
    (st : Engine) : Engine × Option PyErr :=
  match parse a with
  | .error e => (st, some e)
  | .ok m => stepMsg selected_symbols depth st (wrap m)

/-- The `while message_type:` loop of `reconstruct_orderbook` over the raw
byte stream: read a tag byte, read the tag's payload length (a short read
near end-of-stream returns the remaining bytes), parse and dispatch.  A
tag outside the `elif` chain reads no payload (`a = b""`) and the loop
continues at the next byte. -/
def runLoop (selected_symbols : List (List ℕ)) (depth : ℕ) :
    List ℕ → Engine → Engine × Option PyErr
  | [], st => (st, none)
  | t :: rest, st =>
      match skipTagLen t with
      | some n => runLoop selected_symbols depth (rest.drop n) st
      | none =>
          match parsedTagLen t with
          | none => runLoop selected_symbols depth rest st
          | some n =>
              let a := rest.take n
              let step :=
                if t = 82 then
                  parseStep parse_stock_directory Msg.stockDir
                    selected_symbols depth a st
                else if t = 65 then
                  parseStep parse_add_order Msg.addOrder
                    selected_symbols depth a st
                else if t = 70 then
                  parseStep parse_add_order_with_mpid Msg.addOrderMPID
                    selected_symbols depth a st
                else if t = 69 then
                  parseStep parse_order_executed Msg.orderExecuted
                    selected_symbols depth a st
                else if t = 67 then
                  parseStep parse_order_executed_price Msg.orderExecutedPrice
                    selected_symbols depth a st
                else if t = 88 then
                  parseStep parse_order_cancel Msg.orderCancel
                    selected_symbols depth a st
                else if t = 68 then
                  parseStep parse_order_delete Msg.orderDelete
                    selected_symbols depth a st
                else if t = 85 then
                  parseStep parse_order_replace Msg.orderReplace
                    selected_symbols depth a st
                else if t = 80 then
                  parseStep parse_trade Msg.trade
                    selected_symbols depth a st
                else
                  parseStep parse_cross_trade Msg.crossTrade
                    selected_symbols depth a st
              match step with
              | (st', some e) => (st', some e)
              | (st', none) => runLoop selected_symbols depth (rest.drop n) st'
  termination_by bytes => bytes.length
  decreasing_by
    all_goals simp [List.length_drop]
    all_goals omega

/-- `reconstruct_orderbook(path, selected_symbols, depth)` on the byte
contents of the file at `path` (file-system access is outside the core). -/
def reconstruct_orderbook (stream : List ℕ)
    (selected_symbols : List (List ℕ)) (depth : ℕ := 3) :
    Engine × Option PyErr :=
  runLoop selected_symbols depth stream Engine.init

/-- The routing invariant of the engine loop: the set of tracked locates
coincides with the key set of the book dictionary. -/
def TrackInv (st : Engine) : Prop :=
  ∀ l, l ∈ st.selected_stocks ↔ (dictLookup l st.order_book).isSome

/-- Strict monotonicity check for a timestamp column. -/
def strictlyIncreasing : List ℕ → Bool
  | [] => true
  | [_] => true
  | a :: b :: t => decide (a < b) && strictlyIncreasing (b :: t)

/-! ### Helper lemmas -/

theorem dictLookup_dictInsert_self {κ α : Type} [DecidableEq κ] (k : κ)
    (v : α) (l : List (κ × α)) : dictLookup k (dictInsert k v l) = some v := by
  induction l with
  | nil => simp [dictLookup, dictInsert]
  | cons p t ih =>
      by_cases h : k = p.1
      · simp [dictLookup, dictInsert, h]
      · simp [dictLookup, dictInsert, h, ih]

theorem dictLookup_dictInsert_ne {κ α : Type} [DecidableEq κ] {k k' : κ}
    (v : α) (l : List (κ × α)) (h : k' ≠ k) :
    dictLookup k' (dictInsert k v l) = dictLookup k' l := by
  induction l with
  | nil => simp [dictLookup, dictInsert, h]
  | cons p t ih =>
      by_cases hk : k = p.1
      · subst hk
        simp [dictLookup, dictInsert, h]
      · simp [dictLookup, dictInsert, hk, ih]

theorem lookup_isSome_dictInsert {κ α : Type} [DecidableEq κ] (k' k : κ)
    (v : α) (l : List (κ × α)) :
    (dictLookup k' (dictInsert k v l)).isSome ↔
      k' = k ∨ (dictLookup k' l).isSome := by
  by_cases h : k' = k
  · subst h
    simp [dictLookup_dictInsert_self]
  · simp [dictLookup_dictInsert_ne v l h, h]

theorem mem_setAdd {s : List ℕ} {x y : ℕ} :
    y ∈ setAdd s x ↔ y ∈ s ∨ y = x := by
  unfold setAdd
  split
  · rename_i h
    constructor
    · exact Or.inl
    · rintro (hy | rfl)
      · exact hy
      · exact h
  · simp

theorem sideSetVal_map_fst (k : SideKey) (v : α) (l : List (SideKey × α)) :
    (sideSetVal k v l).map Prod.fst = l.map Prod.fst := by
  unfold sideSetVal
  induction l with
  | nil => rfl
  | cons p t ih =>
      simp only [List.map_cons] at ih ⊢
      rw [ih]
      by_cases h : p.1 = k
      · simp [h]
      · simp [h]

theorem record_state_orders (b : OrderBook) (ts : ℕ) :
    (b.record_state ts).orders = b.orders := rfl

theorem record_state_trades (b : OrderBook) (ts : ℕ) :
    (b.record_state ts).trades = b.trades := rfl

theorem record_state_cross_trades (b : OrderBook) (ts : ℕ) :
    (b.record_state ts).cross_trades = b.cross_trades := rfl

theorem record_state_buy_orders (b : OrderBook) (ts : ℕ) :
    (b.record_state ts).buy_orders = b.buy_orders := rfl

theorem record_state_sell_orders (b : OrderBook) (ts : ℕ) :
    (b.record_state ts).sell_orders = b.sell_orders := rfl

theorem update_order_trades (b : OrderBook) (r ts : ℕ) (ns : Option ℤ)
    (np : Option ℚ) : (b.update_order r ts ns np).trades = b.trades := by
  unfold OrderBook.update_order
  cases h : dictLookup r b.orders with
  | none => simp [record_state_trades]
  | some o =>
      simp only [record_state_trades]
      split
      · split <;> rfl
      · split <;> rfl

theorem remove_order_of_lookup {b : OrderBook} {r : ℕ} {o : Order}
    (ho : dictLookup r b.orders = some o) :
    (b.remove_order r).2 = none ∧ (b.remove_order r).1.trades = b.trades := by
  simp only [OrderBook.remove_order, ho]
  constructor
  · trivial
  · split <;> rfl

/-- The exact shape `OrderBook.update_order` produces when the new price
equals the current one: the order value is replaced in `orders` and, by
aliasing, under its unchanged side key; the side dict is not re-keyed. -/
theorem update_order_price_unchanged {b : OrderBook} {r : ℕ} {o : Order}
    (ho : dictLookup r b.orders = some o) (ts : ℕ) (ns : ℤ) :
    b.update_order r ts (some ns) (some o.price) =
      OrderBook.record_state
        { b with
          orders := dictInsert r { o with shares := ns } b.orders
          buy_orders :=
            if o.buy_sell_indicator = 66 then
              sideSetVal (o.price, o.timestamp, r) { o with shares := ns }
                b.buy_orders
            else b.buy_orders
          sell_orders :=
            if o.buy_sell_indicator = 66 then b.sell_orders
            else
              sideSetVal (o.price, o.timestamp, r) { o with shares := ns }
                b.sell_orders } ts := by
  unfold OrderBook.update_order
  rw [ho]
  simp only [Order.update_order, Option.getD_some, Option.getD_none]
  split
  · rename_i hne
    simp at hne
  · split <;> rename_i hbs
    · simp only [if_pos hbs]
    · simp only [if_neg hbs]

/-- C1: for every Execute event (`E`, or `C` with printable flag `Y`)
whose order reference number is resting in the book, `process_trade`
raises `TypeError` — `record_trade(timestamp, order_ref_number)` passes 2
of its 5 required positional arguments — and the trades log is left
unchanged: no record at all is appended, instead of the claimed one
`(ts, shares, price ?? o.price)` record. -/
theorem c1_execute_record_trade_arity (b : OrderBook) (ts r : ℕ)
    (shares : ℤ) (price : Option ℚ) (o : Order)
    (ho : dictLookup r b.orders = some o) :
    (b.process_trade ts r shares price true).2 = some PyErr.typeError ∧
      (b.process_trade ts r shares price true).1.trades = b.trades := by
  unfold OrderBook.process_trade
  rw [ho]
  simp only []
  by_cases hns : o.shares - shares ≤ 0
  · obtain ⟨h2, h1⟩ := remove_order_of_lookup ho
    simp only [if_pos hns]
    cases hrm : b.remove_order r with
    | mk b' e =>
        rw [hrm] at h1 h2
        simp at h1 h2
        subst h2
        simp [h1]
  · simp only [if_neg hns]
    simp [update_order_trades]

/-- Witness for `c1_execute_record_trade_arity`: a book holding one
resting buy order (ref 10, 100 shares at price 100) processed with an `E`
execute of 30 shares. -/
theorem c1_execute_record_trade_arity_witness :
    (((OrderBook.init [84, 69, 83, 84] 3).add_order
        (Order.init 1 10 66 100 100)).process_trade 3 10 30 none true).2 =
        some PyErr.typeError ∧
      (((OrderBook.init [84, 69, 83, 84] 3).add_order
        (Order.init 1 10 66 100 100)).process_trade 3 10 30 none true).1.trades =
        ((OrderBook.init [84, 69, 83, 84] 3).add_order
          (Order.init 1 10 66 100 100)).trades :=
  c1_execute_record_trade_arity _ 3 10 30 none (Order.init 1 10 66 100 100)
    (by decide)

/-- C8 (amended): for an Execute of fewer shares than resting that is an
`E` (no price carried) or a `C` whose execution price equals the resting
order's price, only the resting order's shares field changes (it
decreases by the executed amount): every other order is untouched, the
key sequences of both sides (hence the order's side key and position) are
unchanged, and the trade logs are unchanged. -/
theorem c8_execute_in_place (b : OrderBook) (ts r : ℕ) (shares : ℤ)
    (price : Option ℚ) (pr : Bool) (o : Order)
    (ho : dictLookup r b.orders = some o)
    (hs : shares < o.shares)
    (hp : price = none ∨ price = some o.price) :
    dictLookup r (b.process_trade ts r shares price pr).1.orders =
        some { o with shares := o.shares - shares } ∧
      (∀ r', r' ≠ r →
        dictLookup r' (b.process_trade ts r shares price pr).1.orders =
          dictLookup r' b.orders) ∧
      (b.process_trade ts r shares price pr).1.buy_orders.map Prod.fst =
        b.buy_orders.map Prod.fst ∧
      (b.process_trade ts r shares price pr).1.sell_orders.map Prod.fst =
        b.sell_orders.map Prod.fst ∧
      (b.process_trade ts r shares price pr).1.trades = b.trades ∧
      (b.process_trade ts r shares price pr).1.cross_trades =
        b.cross_trades := by
  have hns : ¬ (o.shares - shares ≤ 0) := by omega
  have hpd : price.getD o.price = o.price := by
    rcases hp with rfl | rfl <;> rfl
  simp only [OrderBook.process_trade, ho, hpd, if_neg hns]
  rw [update_order_price_unchanged ho ts (o.shares - shares)]
  have hb' :
      (if pr then
          (OrderBook.record_state
              { b with
                orders :=
                  dictInsert r { o with shares := o.shares - shares } b.orders
                buy_orders :=
                  if o.buy_sell_indicator = 66 then
                    sideSetVal (o.price, o.timestamp, r)
                      { o with shares := o.shares - shares } b.buy_orders
                  else b.buy_orders
                sell_orders :=
                  if o.buy_sell_indicator = 66 then b.sell_orders
                  else
                    sideSetVal (o.price, o.timestamp, r)
                      { o with shares := o.shares - shares } b.sell_orders }
              ts, some PyErr.typeError)
        else
          (OrderBook.record_state
              { b with
                orders :=
                  dictInsert r { o with shares := o.shares - shares } b.orders
                buy_orders :=
                  if o.buy_sell_indicator = 66 then
                    sideSetVal (o.price, o.timestamp, r)
                      { o with shares := o.shares - shares } b.buy_orders
                  else b.buy_orders
                sell_orders :=
                  if o.buy_sell_indicator = 66 then b.sell_orders
                  else
                    sideSetVal (o.price, o.timestamp, r)
                      { o with shares := o.shares - shares } b.sell_orders }
              ts, none)).1 =
      OrderBook.record_state
        { b with
          orders := dictInsert r { o with shares := o.shares - shares } b.orders
          buy_orders :=
            if o.buy_sell_indicator = 66 then
              sideSetVal (o.price, o.timestamp, r)
                { o with shares := o.shares - shares } b.buy_orders
            else b.buy_orders
          sell_orders :=
            if o.buy_sell_indicator = 66 then b.sell_orders
            else
              sideSetVal (o.price, o.timestamp, r)
                { o with shares := o.shares - shares } b.sell_orders }
        ts := by
    cases pr <;> rfl
  rw [hb']
  refine ⟨?_, ?_, ?_, ?_, rfl, rfl⟩
  · rw [record_state_orders]
    exact dictLookup_dictInsert_self r _ b.orders
  · intro r' hr
    rw [record_state_orders]
    exact dictLookup_dictInsert_ne _ b.orders hr
  · rw [record_state_buy_orders]
    split <;> simp [sideSetVal_map_fst]
  · rw [record_state_sell_orders]
    split <;> simp [sideSetVal_map_fst]

/-- Witness for `c8_execute_in_place`: an `E` execute of 30 of 100
resting shares on a one-order book (ref 10, buy, price 100, added at
ts 1). -/
theorem c8_execute_in_place_witness :
    dictLookup 10
        (((OrderBook.init [84, 69, 83, 84] 3).add_order
          (Order.init 1 10 66 100 100)).process_trade 3 10 30 none
          false).1.orders =
        some { Order.init 1 10 66 100 100 with shares := (100 : ℤ) - 30 } ∧
      (∀ r', r' ≠ 10 →
        dictLookup r'
            (((OrderBook.init [84, 69, 83, 84] 3).add_order
              (Order.init 1 10 66 100 100)).process_trade 3 10 30 none
              false).1.orders =
          dictLookup r'
            ((OrderBook.init [84, 69, 83, 84] 3).add_order
              (Order.init 1 10 66 100 100)).orders) ∧
      (((OrderBook.init [84, 69, 83, 84] 3).add_order
          (Order.init 1 10 66 100 100)).process_trade 3 10 30 none
          false).1.buy_orders.map Prod.fst =
        ((OrderBook.init [84, 69, 83, 84] 3).add_order
          (Order.init 1 10 66 100 100)).buy_orders.map Prod.fst ∧
      (((OrderBook.init [84, 69, 83, 84] 3).add_order
          (Order.init 1 10 66 100 100)).process_trade 3 10 30 none
          false).1.sell_orders.map Prod.fst =
        ((OrderBook.init [84, 69, 83, 84] 3).add_order
          (Order.init 1 10 66 100 100)).sell_orders.map Prod.fst ∧
      (((OrderBook.init [84, 69, 83, 84] 3).add_order
          (Order.init 1 10 66 100 100)).process_trade 3 10 30 none
          false).1.trades =
        ((OrderBook.init [84, 69, 83, 84] 3).add_order
          (Order.init 1 10 66 100 100)).trades ∧
      (((OrderBook.init [84, 69, 83, 84] 3).add_order
          (Order.init 1 10 66 100 100)).process_trade 3 10 30 none
          false).1.cross_trades =
        ((OrderBook.init [84, 69, 83, 84] 3).add_order
          (Order.init 1 10 66 100 100)).cross_trades :=
  c8_execute_in_place _ 3 10 30 none false (Order.init 1 10 66 100 100)
    (by decide) (by decide) (Or.inl rfl)

/-- C2: the shares-positivity invariant fails on the code.  Tracked book
(locate 1), `A` adds buy ref 10 with 100 shares at price 100, `X` cancels
100 shares: the `X` handler only decrements in place
(`order.update_order(None, order.shares - m[4], None)`), so ref 10 is
still in the orders index with 0 shares and still rests on the buy side,
and processing continues without error. -/
theorem c2_zero_share_order_rests :
    ((dictLookup 1
        (runMsgs [[84, 69, 83, 84]] 3
          [Msg.stockDir ⟨1, 0, [0, 0, 0, 0, 0, 0], [84, 69, 83, 84], []⟩,
           Msg.addOrder ⟨1, 0, 1, 10, 66, 100, [84, 69, 83, 84], 100⟩,
           Msg.orderCancel ⟨1, 0, 2, 10, 100⟩] Engine.init).1.order_book).map
        (fun b => (dictLookup 10 b.orders).map Order.shares)) =
        some (some 0) ∧
      ((dictLookup 1
        (runMsgs [[84, 69, 83, 84]] 3
          [Msg.stockDir ⟨1, 0, [0, 0, 0, 0, 0, 0], [84, 69, 83, 84], []⟩,
           Msg.addOrder ⟨1, 0, 1, 10, 66, 100, [84, 69, 83, 84], 100⟩,
           Msg.orderCancel ⟨1, 0, 2, 10, 100⟩] Engine.init).1.order_book).map
        (fun b => b.buy_orders.map Prod.fst)) =
        some [((100 : ℚ), 1, 10)] ∧
      (runMsgs [[84, 69, 83, 84]] 3
        [Msg.stockDir ⟨1, 0, [0, 0, 0, 0, 0, 0], [84, 69, 83, 84], []⟩,
         Msg.addOrder ⟨1, 0, 1, 10, 66, 100, [84, 69, 83, 84], 100⟩,
         Msg.orderCancel ⟨1, 0, 2, 10, 100⟩] Engine.init).2 = none := by
  decide

/-- C3: a Cancel of more shares than resting does not remove the order.
Tracked book (locate 1), `A` adds buy ref 20 with 100 shares at price 50,
`X` cancels 150 shares: the order stays in the index with −50 shares and
stays on the buy side, instead of being removed. -/
theorem c3_cancel_overshoot_not_removed :
    ((dictLookup 1
        (runMsgs [[84, 69, 83, 84]] 3
          [Msg.stockDir ⟨1, 0, [0, 0, 0, 0, 0, 0], [84, 69, 83, 84], []⟩,
           Msg.addOrder ⟨1, 0, 5, 20, 66, 100, [84, 69, 83, 84], 50⟩,
           Msg.orderCancel ⟨1, 0, 6, 20, 150⟩] Engine.init).1.order_book).map
        (fun b => (dictLookup 20 b.orders).map Order.shares)) =
        some (some (-50)) ∧
      ((dictLookup 1
        (runMsgs [[84, 69, 83, 84]] 3
          [Msg.stockDir ⟨1, 0, [0, 0, 0, 0, 0, 0], [84, 69, 83, 84], []⟩,
           Msg.addOrder ⟨1, 0, 5, 20, 66, 100, [84, 69, 83, 84], 50⟩,
           Msg.orderCancel ⟨1, 0, 6, 20, 150⟩] Engine.init).1.order_book).map
        (fun b => b.buy_orders.map Prod.fst)) =
        some [((50 : ℚ), 5, 20)] ∧
      (runMsgs [[84, 69, 83, 84]] 3
        [Msg.stockDir ⟨1, 0, [0, 0, 0, 0, 0, 0], [84, 69, 83, 84], []⟩,
         Msg.addOrder ⟨1, 0, 5, 20, 66, 100, [84, 69, 83, 84], 50⟩,
         Msg.orderCancel ⟨1, 0, 6, 20, 150⟩] Engine.init).2 = none := by
  decide

/-- C4: a Cross Trade (`Q`) for a tracked locate appends nothing to
`cross_trades`: the handler calls `record_trade(m[2], m[3], m[5])` — the
wrong method, with 3 of its 5 required arguments — so the run aborts with
`TypeError` and both logs stay empty. -/
theorem c4_cross_trade_type_error :
    (runMsgs [[84, 69, 83, 84]] 3
        [Msg.stockDir ⟨1, 0, [0, 0, 0, 0, 0, 0], [84, 69, 83, 84], []⟩,
         Msg.crossTrade ⟨1, 0, 2, 500, [84, 69, 83, 84], 100, 7, 79⟩]
        Engine.init).2 = some PyErr.typeError ∧
      ((dictLookup 1
        (runMsgs [[84, 69, 83, 84]] 3
          [Msg.stockDir ⟨1, 0, [0, 0, 0, 0, 0, 0], [84, 69, 83, 84], []⟩,
           Msg.crossTrade ⟨1, 0, 2, 500, [84, 69, 83, 84], 100, 7, 79⟩]
          Engine.init).1.order_book).map OrderBook.trades) = some [] ∧
      ((dictLookup 1
        (runMsgs [[84, 69, 83, 84]] 3
          [Msg.stockDir ⟨1, 0, [0, 0, 0, 0, 0, 0], [84, 69, 83, 84], []⟩,
           Msg.crossTrade ⟨1, 0, 2, 500, [84, 69, 83, 84], 100, 7, 79⟩]
          Engine.init).1.order_book).map OrderBook.cross_trades) = some [] := by
  decide

/-- C5: the snapshot history is not one-row-per-event and not strictly
increasing.  For events with strictly increasing timestamps — `A` ref 10
at ts 1, `A` ref 11 at ts 2, `D` ref 10 at ts 3 — each Add records two
rows (once inside `add_order`, once in the engine) and the Delete first
records a row stamped with the deleted order's own timestamp (line 166 of
`orderbook.py`), yielding ts column `[1, 1, 2, 2, 1, 3]`: six rows for
three events, not strictly monotone. -/
theorem c5_history_not_strictly_monotone :
    ((dictLookup 1
        (runMsgs [[84, 69, 83, 84]] 3
          [Msg.stockDir ⟨1, 0, [0, 0, 0, 0, 0, 0], [84, 69, 83, 84], []⟩,
           Msg.addOrder ⟨1, 0, 1, 10, 66, 100, [84, 69, 83, 84], 100⟩,
           Msg.addOrder ⟨1, 0, 2, 11, 66, 50, [84, 69, 83, 84], 100⟩,
           Msg.orderDelete ⟨1, 0, 3, 10⟩] Engine.init).1.order_book).map
        (fun b => b.order_book_history.map Prod.fst)) =
        some [1, 1, 2, 2, 1, 3] ∧
      strictlyIncreasing [1, 1, 2, 2, 1, 3] = false := by
  decide

/-- C6: an Order Delete (`D`) whose reference was never added does not
drop the event: `remove_order` reaches `record_state(order.timestamp)`
with the local `order` unbound and the run aborts with a `NameError`
instead of continuing with unchanged state. -/
theorem c6_unknown_ref_delete_raises :
    (runMsgs [[84, 69, 83, 84]] 3
        [Msg.stockDir ⟨1, 0, [0, 0, 0, 0, 0, 0], [84, 69, 83, 84], []⟩,
         Msg.orderDelete ⟨1, 0, 2, 99⟩] Engine.init).2 =
      some PyErr.nameError := by
  decide

/-- C8 counterexample: a `C` execute (non-printable, so no `TypeError`
intervenes) of 30 of 100 resting shares at execution price 99.5 re-prices
the resting order — added at price 100 — to 99.5 and re-keys it on the
buy side, so the price and side key of the resting order do change. -/
theorem c8_counterexample_price_executed :
    ((dictLookup 1
        (runMsgs [[84, 69, 83, 84]] 3
          [Msg.stockDir ⟨1, 0, [0, 0, 0, 0, 0, 0], [84, 69, 83, 84], []⟩,
           Msg.addOrder ⟨1, 0, 1, 10, 66, 100, [84, 69, 83, 84], 100⟩,
           Msg.orderExecutedPrice ⟨1, 0, 3, 10, 30, 7, 78, 199 / 2⟩]
          Engine.init).1.order_book).map
        (fun b => (dictLookup 10 b.orders).map Order.price)) =
        some (some ((199 : ℚ) / 2)) ∧
      ((dictLookup 1
        (runMsgs [[84, 69, 83, 84]] 3
          [Msg.stockDir ⟨1, 0, [0, 0, 0, 0, 0, 0], [84, 69, 83, 84], []⟩,
           Msg.addOrder ⟨1, 0, 1, 10, 66, 100, [84, 69, 83, 84], 100⟩,
           Msg.orderExecutedPrice ⟨1, 0, 3, 10, 30, 7, 78, 199 / 2⟩]
          Engine.init).1.order_book).map
        (fun b => b.buy_orders.map Prod.fst)) =
        some [(((199 : ℚ) / 2), 1, 10)] ∧
      ((199 : ℚ) / 2) ≠ (100 : ℚ) := by
  decide

/-- C9 counterexample: the price the decoder hands to the core is not the
raw unsigned 32-bit integer of the feed: for an `A` payload whose price
field holds 1000000, `parse_add_order` returns price 100 (the raw value
already divided by 10000 and made a float), not 1000000. -/
theorem c9_counterexample_price_scaled_at_decode :
    ((parse_add_order
        ([0, 1] ++ [0, 0] ++ [0, 0, 0, 0, 0, 1] ++
          [0, 0, 0, 0, 0, 0, 0, 10] ++ [66] ++ [0, 0, 0, 100] ++
          [84, 69, 83, 84, 32, 32, 32, 32] ++
          [0, 15, 66, 64])).toOption.map AddOrderMsg.price) =
        some (100 : ℚ) ∧
      (100 : ℚ) ≠ (1000000 : ℚ) := by
  decide

/-- C9 (amended): the u32→float scaling by 1/10000 happens at decode
time, and the core holds nothing but those decoded values: every
price-carrying parser — `parse_add_order`, `parse_add_order_with_mpid`,
`parse_order_executed_price`, `parse_order_replace`, `parse_trade`,
`parse_cross_trade` — returns `raw_u32 / 10000` for its price field;
`add_order` stores the decoded order unchanged (a lookup returns it with
the same price) and builds its side-map key directly from that stored
price as `(price, original_timestamp, ref)`, so resting prices and the
prices compared inside side keys are all the decode-time values with no
further conversion inside the core. -/
theorem c9_price_scaled_once :
    (∀ a m, parse_add_order a = .ok m →
        m.price = (beNat (field a 31 4) : ℚ) / 10000) ∧
      (∀ a m, parse_add_order_with_mpid a = .ok m →
        m.price = (beNat (field a 31 4) : ℚ) / 10000) ∧
      (∀ a m, parse_order_executed_price a = .ok m →
        m.execution_price = (beNat (field a 31 4) : ℚ) / 10000) ∧
      (∀ a m, parse_order_replace a = .ok m →
        m.price = (beNat (field a 30 4) : ℚ) / 10000) ∧
      (∀ a m, parse_trade a = .ok m →
        m.price = (beNat (field a 31 4) : ℚ) / 10000) ∧
      (∀ a m, parse_cross_trade a = .ok m →
        m.cross_price = (beNat (field a 26 4) : ℚ) / 10000) ∧
      (∀ (b : OrderBook) (o : Order),
        dictLookup o.order_ref_number (b.add_order o).orders = some o) ∧
      (∀ (b : OrderBook) (o : Order),
        (b.add_order o).buy_orders =
          (if o.buy_sell_indicator = 66 then
            sideInsert (o.price, o.original_timestamp, o.order_ref_number) o
              b.buy_orders
          else b.buy_orders) ∧
        (b.add_order o).sell_orders =
          (if o.buy_sell_indicator = 66 then b.sell_orders
          else
            sideInsert (o.price, o.original_timestamp, o.order_ref_number) o
              b.sell_orders)) := by
  refine ⟨?_, ?_, ?_, ?_, ?_, ?_, ?_, ?_⟩
  · intro a m h
    unfold parse_add_order at h
    split at h
    · cases h
      rfl
    · cases h
  · intro a m h
    unfold parse_add_order_with_mpid at h
    split at h
    · cases h
      rfl
    · cases h
  · intro a m h
    unfold parse_order_executed_price at h
    split at h
    · cases h
      rfl
    · cases h
  · intro a m h
    unfold parse_order_replace at h
    split at h
    · cases h
      rfl
    · cases h
  · intro a m h
    unfold parse_trade at h
    split at h
    · cases h
      rfl
    · cases h
  · intro a m h
    unfold parse_cross_trade at h
    split at h
    · cases h
      rfl
    · cases h
  · intro b o
    unfold OrderBook.add_order
    rw [record_state_orders]
    split <;> exact dictLookup_dictInsert_self _ _ _
  · intro b o
    unfold OrderBook.add_order
    constructor
    · rw [record_state_buy_orders]
      split <;> simp
    · rw [record_state_sell_orders]
      split <;> simp

/-- Witness for `c9_price_scaled_once`: one concrete payload per
price-carrying parser, each with price bytes `[0, 15, 66, 64]`
(raw 1000000, decoding to 100), and a fresh book receiving buy order
ref 10 at the decoded price. -/
theorem c9_price_scaled_once_witness :
    (AddOrderMsg.mk 1 0 1 10 66 100 [84, 69, 83, 84] 100).price =
        (beNat (field
          ([0, 1] ++ [0, 0] ++ [0, 0, 0, 0, 0, 1] ++
            [0, 0, 0, 0, 0, 0, 0, 10] ++ [66] ++ [0, 0, 0, 100] ++
            [84, 69, 83, 84, 32, 32, 32, 32] ++ [0, 15, 66, 64]) 31 4) : ℚ) /
          10000 ∧
      (AddOrderMsg.mk 1 0 1 10 66 100 [84, 69, 83, 84] 100).price =
        (beNat (field
          ([0, 1] ++ [0, 0] ++ [0, 0, 0, 0, 0, 1] ++
            [0, 0, 0, 0, 0, 0, 0, 10] ++ [66] ++ [0, 0, 0, 100] ++
            [84, 69, 83, 84, 32, 32, 32, 32] ++ [0, 15, 66, 64] ++
            [77, 80, 73, 68]) 31 4) : ℚ) / 10000 ∧
      (OrderExecutedPriceMsg.mk 1 0 3 10 30 7 89 100).execution_price =
        (beNat (field
          ([0, 1] ++ [0, 0] ++ [0, 0, 0, 0, 0, 3] ++
            [0, 0, 0, 0, 0, 0, 0, 10] ++ [0, 0, 0, 30] ++
            [0, 0, 0, 0, 0, 0, 0, 7] ++ [89] ++ [0, 15, 66, 64]) 31 4) : ℚ) /
          10000 ∧
      (OrderReplaceMsg.mk 1 0 5 10 12 40 100).price =
        (beNat (field
          ([0, 1] ++ [0, 0] ++ [0, 0, 0, 0, 0, 5] ++
            [0, 0, 0, 0, 0, 0, 0, 10] ++ [0, 0, 0, 0, 0, 0, 0, 12] ++
            [0, 0, 0, 40] ++ [0, 15, 66, 64]) 30 4) : ℚ) / 10000 ∧
      (TradeMsg.mk 1 0 2 10 66 500 [84, 69, 83, 84] 100 7).price =
        (beNat (field
          ([0, 1] ++ [0, 0] ++ [0, 0, 0, 0, 0, 2] ++
            [0, 0, 0, 0, 0, 0, 0, 10] ++ [66] ++ [0, 0, 1, 244] ++
            [84, 69, 83, 84, 32, 32, 32, 32] ++ [0, 15, 66, 64] ++
            [0, 0, 0, 0, 0, 0, 0, 7]) 31 4) : ℚ) / 10000 ∧
      (CrossTradeMsg.mk 1 0 4 500 [84, 69, 83, 84] 100 7 79).cross_price =
        (beNat (field
          ([0, 1] ++ [0, 0] ++ [0, 0, 0, 0, 0, 4] ++
            [0, 0, 0, 0, 0, 0, 1, 244] ++ [84, 69, 83, 84, 32, 32, 32, 32] ++
            [0, 15, 66, 64] ++ [0, 0, 0, 0, 0, 0, 0, 7] ++ [79]) 26 4) : ℚ) /
          10000 ∧
      dictLookup (Order.init 1 10 66 100 100).order_ref_number
          ((OrderBook.init [84, 69, 83, 84] 3).add_order
            (Order.init 1 10 66 100 100)).orders =
        some (Order.init 1 10 66 100 100) ∧
      ((OrderBook.init [84, 69, 83, 84] 3).add_order
          (Order.init 1 10 66 100 100)).buy_orders =
        (if (Order.init 1 10 66 100 100).buy_sell_indicator = 66 then
          sideInsert ((Order.init 1 10 66 100 100).price,
              (Order.init 1 10 66 100 100).original_timestamp,
              (Order.init 1 10 66 100 100).order_ref_number)
            (Order.init 1 10 66 100 100)
            (OrderBook.init [84, 69, 83, 84] 3).buy_orders
        else (OrderBook.init [84, 69, 83, 84] 3).buy_orders) ∧
      ((OrderBook.init [84, 69, 83, 84] 3).add_order
          (Order.init 1 10 66 100 100)).sell_orders =
        (if (Order.init 1 10 66 100 100).buy_sell_indicator = 66 then
          (OrderBook.init [84, 69, 83, 84] 3).sell_orders
        else
          sideInsert ((Order.init 1 10 66 100 100).price,
              (Order.init 1 10 66 100 100).original_timestamp,
              (Order.init 1 10 66 100 100).order_ref_number)
            (Order.init 1 10 66 100 100)
            (OrderBook.init [84, 69, 83, 84] 3).sell_orders) :=
  ⟨c9_price_scaled_once.1 _
      (AddOrderMsg.mk 1 0 1 10 66 100 [84, 69, 83, 84] 100) (by rfl),
   c9_price_scaled_once.2.1 _
      (AddOrderMsg.mk 1 0 1 10 66 100 [84, 69, 83, 84] 100) (by rfl),
   c9_price_scaled_once.2.2.1 _
      (OrderExecutedPriceMsg.mk 1 0 3 10 30 7 89 100) (by rfl),
   c9_price_scaled_once.2.2.2.1 _
      (OrderReplaceMsg.mk 1 0 5 10 12 40 100) (by rfl),
   c9_price_scaled_once.2.2.2.2.1 _
      (TradeMsg.mk 1 0 2 10 66 500 [84, 69, 83, 84] 100 7) (by rfl),
   c9_price_scaled_once.2.2.2.2.2.1 _
      (CrossTradeMsg.mk 1 0 4 500 [84, 69, 83, 84] 100 7 79) (by rfl),
   c9_price_scaled_once.2.2.2.2.2.2.1 (OrderBook.init [84, 69, 83, 84] 3)
      (Order.init 1 10 66 100 100),
   (c9_price_scaled_once.2.2.2.2.2.2.2 (OrderBook.init [84, 69, 83, 84] 3)
      (Order.init 1 10 66 100 100)).1,
   (c9_price_scaled_once.2.2.2.2.2.2.2 (OrderBook.init [84, 69, 83, 84] 3)
      (Order.init 1 10 66 100 100)).2⟩

theorem take_length_ne {l : List ℕ} {k : ℕ} (h : l.length < k) :
    (l.take k).length ≠ k := by
  simp only [List.length_take]
  omega

/-- C7 counterexample: an unknown tag byte is not fatal.  On the
one-byte stream `[0x5A]` (tag `'Z'`, not in the `elif` chain) the run
finishes cleanly with no error and empty state, instead of failing with
a `MalformedRecord` error and a non-zero outcome. -/
theorem c7_counterexample_unknown_tag_not_fatal :
    reconstruct_orderbook [90] [] 3 = (Engine.init, none) := by
  unfold reconstruct_orderbook
  rw [runLoop]
  simp only [skipTagLen, parsedTagLen]
  norm_num
  rw [runLoop]

set_option maxHeartbeats 2000000 in
/-- C7 (amended): the decoder loop has no error for unknown tags and no
dedicated truncation error: (1) a tag byte outside the 21-entry `elif`
chain consumes no payload and processing silently continues at the next
byte; (2) end-of-stream inside the payload of a record whose payload is
parsed (`R A F E C X D U P Q`) aborts the run with `struct.error` from
`struct.unpack` (a non-zero outcome, but not a dedicated
`TruncatedStream` error); (3) end-of-stream inside the payload of a
read-and-ignored record (`S H Y L V W K J h B I`) ends the run cleanly
with no error. -/
theorem c7_decoder_error_handling :
    (∀ (sel : List (List ℕ)) (d t : ℕ) (rest : List ℕ) (st : Engine),
        t ∉ knownTags →
        runLoop sel d (t :: rest) st = runLoop sel d rest st) ∧
      (∀ (sel : List (List ℕ)) (d t n : ℕ) (rest : List ℕ) (st : Engine),
        parsedTagLen t = some n → rest.length < n →
        (runLoop sel d (t :: rest) st).2 = some PyErr.structError) ∧
      (∀ (sel : List (List ℕ)) (d t n : ℕ) (rest : List ℕ) (st : Engine),
        skipTagLen t = some n → rest.length < n →
        runLoop sel d (t :: rest) st = (st, none)) := by
  refine ⟨?_, ?_, ?_⟩
  · intro sel d t rest st h
    simp only [knownTags, List.mem_cons, List.not_mem_nil, or_false,
      not_or] at h
    obtain ⟨h83, h82, h72, h89, h76, h86, h87, h75, h74, h104, h65, h70,
      h69, h67, h88, h68, h85, h80, h81, h66, h73⟩ := h
    have hs : skipTagLen t = none := by
      simp [skipTagLen, h83, h72, h89, h76, h86, h87, h75, h74, h104, h66,
        h73]
    have hp : parsedTagLen t = none := by
      simp [parsedTagLen, h82, h65, h70, h69, h67, h88, h68, h85, h80, h81]
    conv_lhs => rw [runLoop]
    simp [hs, hp]
  · intro sel d t n rest st hp hlen
    unfold parsedTagLen at hp
    split_ifs at hp with h1 h2 h3 h4 h5 h6 h7 h8 h9 h10
    all_goals cases hp
    all_goals
      first
        | subst h1 | subst h2 | subst h3 | subst h4 | subst h5
        | subst h6 | subst h7 | subst h8 | subst h9 | subst h10
    all_goals rw [runLoop]
    · simp [skipTagLen, parsedTagLen, parseStep, parse_stock_directory,
        not_le.mpr hlen]
    · simp [skipTagLen, parsedTagLen, parseStep, parse_add_order,
        not_le.mpr hlen]
    · simp [skipTagLen, parsedTagLen, parseStep, parse_add_order_with_mpid,
        not_le.mpr hlen]
    · simp [skipTagLen, parsedTagLen, parseStep, parse_order_executed,
        not_le.mpr hlen]
    · simp [skipTagLen, parsedTagLen, parseStep, parse_order_executed_price,
        not_le.mpr hlen]
    · simp [skipTagLen, parsedTagLen, parseStep, parse_order_cancel,
        not_le.mpr hlen]
    · simp [skipTagLen, parsedTagLen, parseStep, parse_order_delete,
        not_le.mpr hlen]
    · simp [skipTagLen, parsedTagLen, parseStep, parse_order_replace,
        not_le.mpr hlen]
    · simp [skipTagLen, parsedTagLen, parseStep, parse_trade,
        not_le.mpr hlen]
    · simp [skipTagLen, parsedTagLen, parseStep, parse_cross_trade,
        not_le.mpr hlen]
  · intro sel d t n rest st hp hlen
    unfold skipTagLen at hp
    split_ifs at hp with h1 h2 h3 h4 h5 h6 h7 h8 h9 h10 h11
    all_goals cases hp
    all_goals
      first
        | subst h1 | subst h2 | subst h3 | subst h4 | subst h5 | subst h6
        | subst h7 | subst h8 | subst h9 | subst h10 | subst h11
    all_goals
      rw [runLoop]
      simp only [skipTagLen]
      norm_num
      rw [List.drop_eq_nil_of_le (by omega)]
      rw [runLoop]

/-- Witness for `c7_decoder_error_handling`: tag `0x5A` is unknown and
skipped; a truncated `R` payload (one byte) raises `struct.error`; a
truncated `S` payload (two bytes) ends the run cleanly. -/
theorem c7_decoder_error_handling_witness :
    runLoop [] 3 (90 :: [7]) Engine.init = runLoop [] 3 [7] Engine.init ∧
      (runLoop [] 3 (82 :: [0]) Engine.init).2 = some PyErr.structError ∧
      runLoop [] 3 (83 :: [1, 2]) Engine.init = (Engine.init, none) :=
  ⟨c7_decoder_error_handling.1 [] 3 90 [7] Engine.init (by decide),
   c7_decoder_error_handling.2.1 [] 3 82 38 [0] Engine.init (by decide)
     (by decide),
   c7_decoder_error_handling.2.2 [] 3 83 11 [1, 2] Engine.init (by decide)
     (by decide)⟩

theorem trackInv_setBook {st : Engine} (h : TrackInv st) {locate : ℕ}
    (hb : (dictLookup locate st.order_book).isSome) (b : OrderBook) :
    TrackInv (setBook st locate b) := by
  intro l
  show l ∈ st.selected_stocks ↔
    (dictLookup l (dictInsert locate b st.order_book)).isSome
  rw [lookup_isSome_dictInsert]
  constructor
  · intro hl
    exact Or.inr ((h l).mp hl)
  · rintro (rfl | hl)
    · exact (h l).mpr hb
    · exact (h l).mpr hl

theorem trackInv_stockDir {st : Engine} (h : TrackInv st) (locate : ℕ)
    (bk : OrderBook) :
    TrackInv ⟨setAdd st.selected_stocks locate,
      dictInsert locate bk st.order_book⟩ := by
  intro l
  show l ∈ setAdd st.selected_stocks locate ↔
    (dictLookup l (dictInsert locate bk st.order_book)).isSome
  rw [mem_setAdd, lookup_isSome_dictInsert, h l]
  tauto

theorem stepMsg_trackInv (sel : List (List ℕ)) (d : ℕ) (st : Engine)
    (m : Msg) (h : TrackInv st) : TrackInv (stepMsg sel d st m).1 := by
  cases m with
  | stockDir mm =>
      by_cases hg : mm.stock ∈ sel
      · simpa [stepMsg, hg] using trackInv_stockDir h mm.stock_locate _
      · simpa [stepMsg, hg] using h
  | addOrder mm =>
      by_cases hg : mm.stock_locate ∈ st.selected_stocks
      · cases hb : dictLookup mm.stock_locate st.order_book with
        | none => simpa [stepMsg, hg, hb] using h
        | some b =>
            simpa [stepMsg, hg, hb] using
              trackInv_setBook h (by simp [hb]) _
      · simpa [stepMsg, hg] using h
  | addOrderMPID mm =>
      by_cases hg : mm.stock_locate ∈ st.selected_stocks
      · cases hb : dictLookup mm.stock_locate st.order_book with
        | none => simpa [stepMsg, hg, hb] using h
        | some b =>
            simpa [stepMsg, hg, hb] using
              trackInv_setBook h (by simp [hb]) _
      · simpa [stepMsg, hg] using h
  | orderExecuted mm =>
      by_cases hg : mm.stock_locate ∈ st.selected_stocks
      · cases hb : dictLookup mm.stock_locate st.order_book with
        | none => simpa [stepMsg, hg, hb] using h
        | some b =>
            cases hq : b.process_trade mm.timestamp mm.order_ref_number
                (mm.executed_shares : ℤ) none true with
            | mk b' e =>
                cases e with
                | none =>
                    simpa [stepMsg, hg, hb, hq] using
                      trackInv_setBook h (by simp [hb]) _
                | some eo =>
                    simpa [stepMsg, hg, hb, hq] using
                      trackInv_setBook h (by simp [hb]) _
      · simpa [stepMsg, hg] using h
  | orderExecutedPrice mm =>
      by_cases hg : mm.stock_locate ∈ st.selected_stocks
      · cases hb : dictLookup mm.stock_locate st.order_book with
        | none => simpa [stepMsg, hg, hb] using h
        | some b =>
            cases hq : b.process_trade mm.timestamp mm.order_ref_number
                (mm.executed_shares : ℤ) (some mm.execution_price)
                (mm.printable = 89) with
            | mk b' e =>
                cases e with
                | none =>
                    simpa [stepMsg, hg, hb, hq] using
                      trackInv_setBook h (by simp [hb]) _
                | some eo =>
                    simpa [stepMsg, hg, hb, hq] using
                      trackInv_setBook h (by simp [hb]) _
      · simpa [stepMsg, hg] using h
  | orderCancel mm =>
      by_cases hg : mm.stock_locate ∈ st.selected_stocks
      · cases hb : dictLookup mm.stock_locate st.order_book with
        | none => simpa [stepMsg, hg, hb] using h
        | some b =>
            cases ho : dictLookup mm.order_ref_number b.orders with
            | none => simpa [stepMsg, hg, hb, ho] using h
            | some o =>
                simpa [stepMsg, hg, hb, ho] using
                  trackInv_setBook h (by simp [hb]) _
      · simpa [stepMsg, hg] using h
  | orderDelete mm =>
      by_cases hg : mm.stock_locate ∈ st.selected_stocks
      · cases hb : dictLookup mm.stock_locate st.order_book with
        | none => simpa [stepMsg, hg, hb] using h
        | some b =>
            cases hq : b.remove_order mm.order_ref_number with
            | mk b' e =>
                cases e with
                | none =>
                    simpa [stepMsg, hg, hb, hq] using
                      trackInv_setBook h (by simp [hb]) _
                | some eo =>
                    simpa [stepMsg, hg, hb, hq] using
                      trackInv_setBook h (by simp [hb]) _
      · simpa [stepMsg, hg] using h
  | orderReplace mm =>
      by_cases hg : mm.stock_locate ∈ st.selected_stocks
      · cases hb : dictLookup mm.stock_locate st.order_book with
        | none => simpa [stepMsg, hg, hb] using h
        | some b =>
            cases ho : dictLookup mm.original_order_ref_number b.orders with
            | none => simpa [stepMsg, hg, hb, ho] using h
            | some og =>
                cases hq : b.remove_order og.order_ref_number with
                | mk b' e =>
                    cases e with
                    | none =>
                        simpa [stepMsg, hg, hb, ho, hq] using
                          trackInv_setBook h (by simp [hb]) _
                    | some eo =>
                        simpa [stepMsg, hg, hb, ho, hq] using
                          trackInv_setBook h (by simp [hb]) _
      · simpa [stepMsg, hg] using h
  | trade mm =>
      by_cases hg : mm.stock_locate ∈ st.selected_stocks
      · cases hb : dictLookup mm.stock_locate st.order_book with
        | none => simpa [stepMsg, hg, hb] using h
        | some b => simpa [stepMsg, hg, hb] using h
      · simpa [stepMsg, hg] using h
  | crossTrade mm =>
      by_cases hg : mm.stock_locate ∈ st.selected_stocks
      · cases hb : dictLookup mm.stock_locate st.order_book with
        | none => simpa [stepMsg, hg, hb] using h
        | some b => simpa [stepMsg, hg, hb] using h
      · simpa [stepMsg, hg] using h
  | skipped => simpa [stepMsg] using h

theorem runMsgs_trackInv (sel : List (List ℕ)) (d : ℕ) (msgs : List Msg) :
    ∀ st : Engine, TrackInv st → TrackInv (runMsgs sel d msgs st).1 := by
  induction msgs with
  | nil => intro st h; exact h
  | cons m rest ih =>
      intro st h
      have h' := stepMsg_trackInv sel d st m h
      unfold runMsgs
      cases hs : stepMsg sel d st m with
      | mk st' e =>
          rw [hs] at h'
          cases e with
          | none => exact ih st' h'
          | some eo => exact h'

/-- C10: throughout the engine loop, `selected_stocks` equals the key set
of `order_book`: starting from the empty state, after any sequence of
decoded records a locate is in `selected_stocks` iff `order_book` holds a
book for it (both are touched only together, by the `R` handler), so every
dispatch guarded by `m[0] in selected_stocks` finds its book. -/
theorem c10_selected_stocks_matches_books (sel : List (List ℕ)) (d : ℕ)
    (msgs : List Msg) (locate : ℕ) :
    locate ∈ (runMsgs sel d msgs Engine.init).1.selected_stocks ↔
      (dictLookup locate (runMsgs sel d msgs Engine.init).1.order_book).isSome :=
  runMsgs_trackInv sel d msgs Engine.init
    (fun l => by simp [Engine.init, dictLookup]) locate

end ItchBook
